import Mathlib

/-!
Verification development for the `dflow-api-client` WebSocket streaming core
(`src/prediction/websocket/mod.rs` and `src/prediction/websocket/types.rs`).

The embedding models:
* the wire types `Channel`, `MessageType`, `SubscribeMessage` together with
  their serde-JSON serialization (`#[serde(rename_all = "lowercase")]`,
  `#[serde(rename = "type")]`, `#[serde(skip_serializing_if = "Option::is_none")]`);
* the background task `run_ws` as a deterministic step function over an
  explicit `LoopState`.  Each arm of the `tokio::select!` becomes one `Event`
  constructor; the outcome of each fallible socket operation (`ws.send`,
  `serde_json::to_string`) is an oracle `Bool` carried by the event, so that
  every control path of the Rust code is reachable in the model.
* the caller-side typed stream built by `subscribe_channel`
  (`filter_map` over raw JSON values).

Observable effects are recorded in traces inside the state: `sent` is the list
of frames handed to `ws.send` (in order), `delivered` the list of raw values
forwarded to subscription sinks, `replies` the list of responses sent back to
callers, `closedSinks` the sinks whose senders have been dropped.  Dropping the
`subscriptions` map when `run_ws` returns closes every remaining sink; the
model performs that closure in `terminate`.
-/

namespace DflowWs

/-- JSON values, the shape of `serde_json::Value` as far as this client
inspects it.  An inbound text frame is modelled as the result of parsing it:
`none` for invalid JSON, `some j` for the parsed value. -/
inductive Json where
  | null : Json
  | bool : Bool → Json
  | num : Int → Json
  | str : String → Json
  | arr : List Json → Json
  | obj : List (String × Json) → Json

/-- Hexadecimal digit, used in JSON `\u00XX` escapes of control characters. -/
def hexDigit (n : Nat) : Char :=
  if n < 10 then Char.ofNat (48 + n) else Char.ofNat (87 + n)

/-- Escape one character the way `serde_json` escapes string contents. -/
def escapeChar (c : Char) : String :=
  if c = '"' then "\\\""
  else if c = '\\' then "\\\\"
  else if c = Char.ofNat 8 then "\\b"
  else if c = Char.ofNat 12 then "\\f"
  else if c = Char.ofNat 10 then "\\n"
  else if c = Char.ofNat 13 then "\\r"
  else if c = Char.ofNat 9 then "\\t"
  else if c.toNat < 32 then
    "\\u00" ++ String.singleton (hexDigit (c.toNat / 16))
            ++ String.singleton (hexDigit (c.toNat % 16))
  else String.singleton c

/-- Render a string as a JSON string literal. -/
def renderString (s : String) : String :=
  "\"" ++ String.join (s.toList.map escapeChar) ++ "\""

mutual

/-- Compact rendering of a `Json` value, as `serde_json::to_string` emits it. -/
def Json.render : Json → String
  | .null => "null"
  | .bool true => "true"
  | .bool false => "false"
  | .num n => toString n
  | .str s => renderString s
  | .arr xs => "[" ++ Json.renderArr xs ++ "]"
  | .obj fs => "\x7b" ++ Json.renderObj fs ++ "\x7d"

/-- Comma-separated rendering of array elements. -/
def Json.renderArr : List Json → String
  | [] => ""
  | [x] => Json.render x
  | x :: xs => Json.render x ++ "," ++ Json.renderArr xs

/-- Comma-separated rendering of object fields. -/
def Json.renderObj : List (String × Json) → String
  | [] => ""
  | [(k, v)] => renderString k ++ ":" ++ Json.render v
  | (k, v) :: fs => renderString k ++ ":" ++ Json.render v ++ "," ++ Json.renderObj fs

end

/-- The field names of a JSON object (empty for non-objects). -/
def Json.keys : Json → List String
  | .obj fs => fs.map Prod.fst
  | _ => []

/-- First field with the given name in a JSON object field list. -/
def lookupField (key : String) : List (String × Json) → Option Json
  | [] => none
  | (k, v) :: fs => if k = key then some v else lookupField key fs

-- =============================================================================
-- Wire types (src/prediction/websocket/types.rs)
-- =============================================================================

/-- `Channel`: available WebSocket channels for subscription. -/
inductive Channel where
  | Prices
  | Trades
  | Orderbook
deriving DecidableEq

/-- `Channel::as_str`. -/
def Channel.as_str : Channel → String
  | .Prices => "prices"
  | .Trades => "trades"
  | .Orderbook => "orderbook"

/-- The serde serialization of a `Channel` value under
`#[serde(rename_all = "lowercase")]`. -/
def Channel.serName : Channel → String
  | .Prices => "prices"
  | .Trades => "trades"
  | .Orderbook => "orderbook"

/-- `MessageType`: subscribe/unsubscribe discriminant. -/
inductive MessageType where
  | Subscribe
  | Unsubscribe
deriving DecidableEq

/-- The serde serialization of a `MessageType` value under
`#[serde(rename_all = "lowercase")]`. -/
def MessageType.serName : MessageType → String
  | .Subscribe => "subscribe"
  | .Unsubscribe => "unsubscribe"

/-- `SubscribeMessage`: subscription request message sent to the server. -/
structure SubscribeMessage where
  msg_type : MessageType
  channel : Channel
  all : Option Bool
  tickers : Option (List String)
deriving DecidableEq

/-- `SubscribeMessage::all` (named `mk_all` here: the structure already has a
field `all`). -/
def SubscribeMessage.mk_all (channel : Channel) : SubscribeMessage :=
  { msg_type := .Subscribe, channel := channel, all := some true, tickers := none }

/-- `SubscribeMessage::tickers` (named `mk_tickers` here: the structure
already has a field `tickers`). -/
def SubscribeMessage.mk_tickers (channel : Channel) (tickers : List String) :
    SubscribeMessage :=
  { msg_type := .Subscribe, channel := channel, all := none, tickers := some tickers }

/-- `SubscribeMessage::unsubscribe_all`. -/
def SubscribeMessage.unsubscribe_all (channel : Channel) : SubscribeMessage :=
  { msg_type := .Unsubscribe, channel := channel, all := some true, tickers := none }

/-- `SubscribeMessage::unsubscribe_tickers`. -/
def SubscribeMessage.unsubscribe_tickers (channel : Channel) (tickers : List String) :
    SubscribeMessage :=
  { msg_type := .Unsubscribe, channel := channel, all := none, tickers := some tickers }

/-- serde-JSON serialization of a `SubscribeMessage`: fields in declaration
order, `msg_type` renamed to `type`, `all` and `tickers` omitted when `None`
(`skip_serializing_if = "Option::is_none"`). -/
def SubscribeMessage.toJson (m : SubscribeMessage) : Json :=
  Json.obj
    ([("type", Json.str m.msg_type.serName), ("channel", Json.str m.channel.serName)]
     ++ (match m.all with
         | some b => [("all", Json.bool b)]
         | none => [])
     ++ (match m.tickers with
         | some ts => [("tickers", Json.arr (ts.map Json.str))]
         | none => []))

/-- `RawMessage` deserialization: `serde_json::from_str::<RawMessage>` succeeds
on a JSON object carrying a string field `channel`, and yields that string. -/
def rawMessageChannel : Json → Option String
  | .obj fs =>
    match lookupField "channel" fs with
    | some (.str s) => some s
    | _ => none
  | _ => none

-- =============================================================================
-- Session Loop state (run_ws in src/prediction/websocket/mod.rs)
-- =============================================================================

/-- Frames handed to `ws.send`. -/
inductive Frame where
  | text : String → Frame
  | ping : List Nat → Frame
  | pong : List Nat → Frame
  | close : Frame
deriving DecidableEq

/-- Responses delivered to callers through their one-shot reply channels. -/
inductive Reply where
  /-- `Ok((notifications_receiver, unsubscribe))`: the sink's consuming end
  (identified by its sink id) plus the unsubscribe capability, which captures
  only the `Channel` value. -/
  | subOk : Nat → Channel → Reply
  /-- `Err(DflowWsError::SerializeError(_))`. -/
  | subErrSerialize : Reply
  /-- `Err(DflowWsError::ConnectionFailed(_))` after a failed `ws.send`. -/
  | subErrSend : Reply
  /-- the `()` acknowledgement of an unsubscribe request. -/
  | unsubAck : Reply
deriving DecidableEq

/-- Loop status: `running` while the `loop` iterates, `terminated` once it
has hit a `break` and `run_ws` has returned. -/
inductive Status where
  | running
  | terminated
deriving DecidableEq

/-- State of the `run_ws` task together with its observable traces. -/
structure LoopState where
  /-- the `subscriptions: BTreeMap<String, UnboundedSender<Value>>` registry,
  as an association list from channel name to sink id. -/
  subs : List (String × Nat)
  /-- source of fresh sink ids (`mpsc::unbounded_channel()` allocations). -/
  nextSink : Nat
  /-- sinks whose sender has been dropped, closing the subscriber's stream. -/
  closedSinks : List Nat
  /-- raw values forwarded to sinks, in order: (sink id, value). -/
  delivered : List (Nat × Json)
  /-- frames handed to `ws.send`, in order. -/
  sent : List Frame
  /-- replies handed to caller reply channels, in order. -/
  replies : List Reply
  status : Status

/-- The state `run_ws` starts from: empty registry, nothing observed yet. -/
def initState : LoopState :=
  { subs := [], nextSink := 0, closedSinks := [], delivered := [],
    sent := [], replies := [], status := .running }

/-- Association-list lookup mirroring `BTreeMap::get`. -/
def lookupSub (key : String) : List (String × Nat) → Option Nat
  | [] => none
  | (k, v) :: rest => if k = key then some v else lookupSub key rest

/-- Remove every binding for `key`, mirroring `BTreeMap::remove`. -/
def removeSub (key : String) : List (String × Nat) → List (String × Nat)
  | [] => []
  | (k, v) :: rest =>
    if k = key then removeSub key rest else (k, v) :: removeSub key rest

/-- Insert a binding, replacing any prior binding for the same key,
mirroring `BTreeMap::insert`. -/
def insertSub (key : String) (v : Nat) (l : List (String × Nat)) :
    List (String × Nat) :=
  (key, v) :: removeSub key l

/-- Number of registry entries for `key`. -/
def countKey (key : String) : List (String × Nat) → Nat
  | [] => 0
  | (k, _) :: rest => (if k = key then 1 else 0) + countKey key rest

/-- One arm of the `tokio::select!` firing.  `Bool` parameters are oracles for
the outcome of the fallible operation performed in that arm (`true` = `Ok`). -/
inductive Event where
  /-- the shutdown one-shot fires. -/
  | shutdown : Event
  /-- the keepalive `sleep` elapses; the oracle is the result of sending the
  ping frame. -/
  | timerTick : Bool → Event
  /-- a subscribe request arrives; oracles: `serde_json::to_string` result,
  then `ws.send` result. -/
  | subscribeReq : SubscribeMessage → Bool → Bool → Event
  /-- an unsubscribe request arrives; oracles: `serde_json::to_string` result,
  then `ws.send` result (the latter is ignored by the code). -/
  | unsubscribeReq : Channel → Bool → Bool → Event
  /-- an inbound text frame, given as its JSON parse (`none` = invalid JSON). -/
  | inboundText : Option Json → Event
  /-- an inbound ping frame with its payload; the oracle is the result of
  sending the pong reply (ignored by the code). -/
  | inboundPing : List Nat → Bool → Event
  /-- an inbound pong frame. -/
  | inboundPong : Event
  /-- an inbound close frame. -/
  | inboundClose : Event
  /-- `ws.next()` returned `Some(Err(_))`. -/
  | inboundRecvErr : Event
  /-- `ws.next()` returned `None` (socket stream ended). -/
  | inboundEnd : Event
  /-- any other inbound frame (binary etc.), ignored by the `_ => {}` arm. -/
  | inboundOther : Event

/-- Leave the `loop` via `break`: `run_ws` returns, dropping the
`subscriptions` map, which drops every sink sender and so closes every
registered sink. -/
def terminate (s : LoopState) : LoopState :=
  { s with
    closedSinks := s.closedSinks ++ s.subs.map Prod.snd,
    subs := [],
    status := .terminated }

/-- One iteration of the `run_ws` loop: the state after the `tokio::select!`
arm for `e` has run.  On a terminated state every event is a no-op (`run_ws`
has already returned). -/
def step (s : LoopState) (e : Event) : LoopState :=
  if s.status = Status.terminated then s else
  match e with
  | .shutdown =>
    terminate { s with sent := s.sent ++ [Frame.close] }
  | .timerTick sendOk =>
    let s1 := { s with sent := s.sent ++ [Frame.ping []] }
    if sendOk then s1 else terminate s1
  | .subscribeReq msg serOk sendOk =>
    if serOk = false then
      { s with replies := s.replies ++ [Reply.subErrSerialize] }
    else
      let s1 := { s with sent := s.sent ++ [Frame.text msg.toJson.render] }
      if sendOk = false then
        { s1 with replies := s1.replies ++ [Reply.subErrSend] }
      else
        let key := msg.channel.as_str
        { s1 with
          subs := insertSub key s1.nextSink s1.subs,
          nextSink := s1.nextSink + 1,
          closedSinks := s1.closedSinks ++
            (match lookupSub key s1.subs with
             | some old => [old]
             | none => []),
          replies := s1.replies ++ [Reply.subOk s1.nextSink msg.channel] }
  | .unsubscribeReq c serOk _sendOk =>
    let key := c.as_str
    let s1 := { s with
      subs := removeSub key s.subs,
      closedSinks := s.closedSinks ++
        (match lookupSub key s.subs with
         | some old => [old]
         | none => []) }
    let s2 :=
      if serOk then
        { s1 with sent := s1.sent ++
            [Frame.text (SubscribeMessage.unsubscribe_all c).toJson.render] }
      else s1
    { s2 with replies := s2.replies ++ [Reply.unsubAck] }
  | .inboundText t =>
    match t with
    | none => s
    | some j =>
      match rawMessageChannel j with
      | none => s
      | some ch =>
        match lookupSub ch s.subs with
        | none => s
        | some k => { s with delivered := s.delivered ++ [(k, j)] }
  | .inboundPing d _sendOk =>
    { s with sent := s.sent ++ [Frame.pong d] }
  | .inboundPong => s
  | .inboundClose => terminate s
  | .inboundRecvErr => terminate s
  | .inboundEnd => terminate s
  | .inboundOther => s

/-- Run the loop over a list of events in arrival order. -/
def run (s : LoopState) (es : List Event) : LoopState :=
  es.foldl step s

-- =============================================================================
-- Caller-side typed stream (subscribe_channel)
-- =============================================================================

/-- The typed stream built by `subscribe_channel`: `filter_map` over the raw
values delivered to the sink, keeping successfully decoded messages and
silently skipping decode failures.  `dec` stands for
`serde_json::from_value::<T>` (`some` = `Ok`, `none` = `Err`). -/
def typedStream {α : Type} (dec : Json → Option α) (raws : List Json) : List α :=
  raws.filterMap dec

-- =============================================================================
-- Helper lemmas: registry association list
-- =============================================================================

theorem lookupSub_removeSub_self (key : String) (l : List (String × Nat)) :
    lookupSub key (removeSub key l) = none := by
  induction l with
  | nil => rfl
  | cons p rest ih =>
    obtain ⟨k, v⟩ := p
    by_cases h : k = key
    · simp [removeSub, h, ih]
    · simp [removeSub, lookupSub, h, ih]

theorem lookupSub_insertSub_self (key : String) (v : Nat) (l : List (String × Nat)) :
    lookupSub key (insertSub key v l) = some v := by
  simp [insertSub, lookupSub]

theorem countKey_removeSub_self (key : String) (l : List (String × Nat)) :
    countKey key (removeSub key l) = 0 := by
  induction l with
  | nil => rfl
  | cons p rest ih =>
    obtain ⟨k, v⟩ := p
    by_cases h : k = key
    · simp [removeSub, h, ih]
    · simp [removeSub, countKey, h, ih]

theorem countKey_insertSub_self (key : String) (v : Nat) (l : List (String × Nat)) :
    countKey key (insertSub key v l) = 1 := by
  simp [insertSub, countKey, countKey_removeSub_self]

theorem removeSub_removeSub (key : String) (l : List (String × Nat)) :
    removeSub key (removeSub key l) = removeSub key l := by
  induction l with
  | nil => rfl
  | cons p rest ih =>
    obtain ⟨k, v⟩ := p
    by_cases h : k = key
    · simp [removeSub, h, ih]
    · simp [removeSub, h, ih]

theorem removeSub_insertSub (key : String) (v : Nat) (l : List (String × Nat)) :
    removeSub key (insertSub key v l) = removeSub key l := by
  simp [insertSub, removeSub, removeSub_removeSub]

-- =============================================================================
-- Helper lemmas: single steps of the Session Loop
-- =============================================================================

theorem run_append (s : LoopState) (es fs : List Event) :
    run s (es ++ fs) = run (run s es) fs :=
  List.foldl_append ..

theorem run_cons (s : LoopState) (e : Event) (es : List Event) :
    run s (e :: es) = run (step s e) es :=
  rfl

theorem step_subscribe_serErr (s : LoopState) (msg : SubscribeMessage)
    (sendOk : Bool) (hs : s.status = Status.running) :
    step s (Event.subscribeReq msg false sendOk)
      = { s with replies := s.replies ++ [Reply.subErrSerialize] } := by
  simp [step, hs]

theorem step_subscribe_sendErr (s : LoopState) (msg : SubscribeMessage)
    (hs : s.status = Status.running) :
    step s (Event.subscribeReq msg true false)
      = { s with sent := s.sent ++ [Frame.text msg.toJson.render],
                 replies := s.replies ++ [Reply.subErrSend] } := by
  simp [step, hs]

theorem step_subscribe_ok (s : LoopState) (msg : SubscribeMessage)
    (hs : s.status = Status.running) :
    step s (Event.subscribeReq msg true true)
      = { s with
          sent := s.sent ++ [Frame.text msg.toJson.render],
          subs := insertSub msg.channel.as_str s.nextSink s.subs,
          nextSink := s.nextSink + 1,
          closedSinks := s.closedSinks ++
            (match lookupSub msg.channel.as_str s.subs with
             | some old => [old]
             | none => []),
          replies := s.replies ++ [Reply.subOk s.nextSink msg.channel] } := by
  simp [step, hs]

theorem step_unsubscribe (s : LoopState) (c : Channel) (serOk sendOk : Bool)
    (hs : s.status = Status.running) :
    step s (Event.unsubscribeReq c serOk sendOk)
      = { s with
          subs := removeSub c.as_str s.subs,
          closedSinks := s.closedSinks ++
            (match lookupSub c.as_str s.subs with
             | some old => [old]
             | none => []),
          sent := s.sent ++
            (if serOk then
              [Frame.text (SubscribeMessage.unsubscribe_all c).toJson.render]
             else []),
          replies := s.replies ++ [Reply.unsubAck] } := by
  cases serOk <;> simp [step, hs]

theorem step_ping (s : LoopState) (d : List Nat) (sendOk : Bool)
    (hs : s.status = Status.running) :
    step s (Event.inboundPing d sendOk)
      = { s with sent := s.sent ++ [Frame.pong d] } := by
  simp [step, hs]

theorem step_timer_fail (s : LoopState) (hs : s.status = Status.running) :
    step s (Event.timerTick false)
      = terminate { s with sent := s.sent ++ [Frame.ping []] } := by
  simp [step, hs]

theorem step_recvErr (s : LoopState) (hs : s.status = Status.running) :
    step s Event.inboundRecvErr = terminate s := by
  simp [step, hs]

theorem step_recvEnd (s : LoopState) (hs : s.status = Status.running) :
    step s Event.inboundEnd = terminate s := by
  simp [step, hs]

-- =============================================================================
-- Helper lemmas: trace monotonicity
-- =============================================================================

theorem step_sent_mono (s : LoopState) (e : Event) :
    ∃ t, (step s e).sent = s.sent ++ t := by
  unfold step
  split
  · exact ⟨[], by simp⟩
  cases e with
  | shutdown => exact ⟨[Frame.close], rfl⟩
  | timerTick sendOk =>
    cases sendOk
    · exact ⟨[Frame.ping []], rfl⟩
    · exact ⟨[Frame.ping []], rfl⟩
  | subscribeReq msg serOk sendOk =>
    cases serOk
    · exact ⟨[], by simp⟩
    · cases sendOk
      · exact ⟨[Frame.text msg.toJson.render], by simp⟩
      · exact ⟨[Frame.text msg.toJson.render], by simp⟩
  | unsubscribeReq c serOk sendOk =>
    cases serOk
    · exact ⟨[], by simp⟩
    · exact ⟨[Frame.text (SubscribeMessage.unsubscribe_all c).toJson.render], by simp⟩
  | inboundText t =>
    cases t with
    | none => exact ⟨[], by simp⟩
    | some j =>
      cases h1 : rawMessageChannel j
      · exact ⟨[], by simp [h1]⟩
      · rename_i ch
        cases h2 : lookupSub ch s.subs
        · exact ⟨[], by simp [h1, h2]⟩
        · exact ⟨[], by simp [h1, h2]⟩
  | inboundPing d sendOk => exact ⟨[Frame.pong d], rfl⟩
  | inboundPong => exact ⟨[], by simp⟩
  | inboundClose => exact ⟨[], by simp [terminate]⟩
  | inboundRecvErr => exact ⟨[], by simp [terminate]⟩
  | inboundEnd => exact ⟨[], by simp [terminate]⟩
  | inboundOther => exact ⟨[], by simp⟩

theorem run_sent_mono (s : LoopState) (es : List Event) :
    ∃ t, (run s es).sent = s.sent ++ t := by
  induction es generalizing s with
  | nil => exact ⟨[], by simp [run]⟩
  | cons e es ih =>
    obtain ⟨t1, h1⟩ := step_sent_mono s e
    obtain ⟨t2, h2⟩ := ih (step s e)
    exact ⟨t1 ++ t2, by rw [run_cons, h2, h1, List.append_assoc]⟩

theorem step_closed_mono (s : LoopState) (e : Event) (x : Nat)
    (hx : x ∈ s.closedSinks) : x ∈ (step s e).closedSinks := by
  unfold step
  split
  · exact hx
  cases e with
  | shutdown => simp [terminate]; exact Or.inl hx
  | timerTick sendOk =>
    cases sendOk
    · simp [terminate]; exact Or.inl hx
    · exact hx
  | subscribeReq msg serOk sendOk =>
    cases serOk
    · simp; exact hx
    · cases sendOk
      · simp; exact hx
      · simp; exact Or.inl hx
  | unsubscribeReq c serOk sendOk =>
    cases serOk <;> simp <;> exact Or.inl hx
  | inboundText t =>
    cases t with
    | none => exact hx
    | some j =>
      cases h1 : rawMessageChannel j
      · simp [h1]; exact hx
      · rename_i ch
        cases h2 : lookupSub ch s.subs
        · simp [h1, h2]; exact hx
        · simp [h1, h2]; exact hx
  | inboundPing d sendOk => exact hx
  | inboundPong => exact hx
  | inboundClose => simp [terminate]; exact Or.inl hx
  | inboundRecvErr => simp [terminate]; exact Or.inl hx
  | inboundEnd => simp [terminate]; exact Or.inl hx
  | inboundOther => exact hx

theorem run_closed_mono (s : LoopState) (es : List Event) (x : Nat)
    (hx : x ∈ s.closedSinks) : x ∈ (run s es).closedSinks := by
  induction es generalizing s with
  | nil => exact hx
  | cons e es ih => exact ih (step s e) (step_closed_mono s e x hx)

-- =============================================================================
-- Claim theorems
-- =============================================================================

/-- Claim C8: every outbound subscribe/unsubscribe wire message serializes to
exactly the documented shape: `type` and `channel` carry the lowercase names,
mode All yields `all: true` and no `tickers` field, ticker mode yields a
`tickers` array and no `all` field, and absent optional fields are omitted
from the JSON object entirely rather than serialized as null. -/
theorem wire_subscribe_message_shape (c : Channel) (ts : List String) :
    (SubscribeMessage.mk_all c).toJson
      = Json.obj [("type", Json.str "subscribe"),
                  ("channel", Json.str c.serName),
                  ("all", Json.bool true)]
    ∧ (SubscribeMessage.mk_tickers c ts).toJson
      = Json.obj [("type", Json.str "subscribe"),
                  ("channel", Json.str c.serName),
                  ("tickers", Json.arr (ts.map Json.str))]
    ∧ (SubscribeMessage.unsubscribe_all c).toJson
      = Json.obj [("type", Json.str "unsubscribe"),
                  ("channel", Json.str c.serName),
                  ("all", Json.bool true)]
    ∧ (SubscribeMessage.unsubscribe_tickers c ts).toJson
      = Json.obj [("type", Json.str "unsubscribe"),
                  ("channel", Json.str c.serName),
                  ("tickers", Json.arr (ts.map Json.str))]
    ∧ (c.serName = "prices" ∨ c.serName = "trades" ∨ c.serName = "orderbook")
    ∧ c.serName = c.as_str
    ∧ "tickers" ∉ (SubscribeMessage.mk_all c).toJson.keys
    ∧ "all" ∉ (SubscribeMessage.mk_tickers c ts).toJson.keys
    ∧ "tickers" ∉ (SubscribeMessage.unsubscribe_all c).toJson.keys
    ∧ "all" ∉ (SubscribeMessage.unsubscribe_tickers c ts).toJson.keys := by
  refine ⟨rfl, rfl, rfl, rfl, ?_, ?_, ?_, ?_, ?_, ?_⟩
  · cases c
    · exact Or.inl rfl
    · exact Or.inr (Or.inl rfl)
    · exact Or.inr (Or.inr rfl)
  · cases c <;> rfl
  all_goals
    simp only [SubscribeMessage.mk_all, SubscribeMessage.mk_tickers,
      SubscribeMessage.unsubscribe_all, SubscribeMessage.unsubscribe_tickers,
      SubscribeMessage.toJson, Json.keys, List.map, List.append_assoc,
      List.cons_append, List.nil_append, List.mem_cons, List.not_mem_nil]
  all_goals decide

/-- Claim C10: for every unsubscribe request the wire frame sent to the server
is always the unsubscribe-all form for that channel, `{type: "unsubscribe",
channel: c, all: true}`, regardless of the mode of the subscription being
cancelled; a ticker-specific unsubscribe is never put on the wire. -/
theorem unsubscribe_wire_always_all_form (s : LoopState) (c : Channel)
    (sendOk : Bool) (hs : s.status = Status.running) :
    (step s (Event.unsubscribeReq c true sendOk)).sent
      = s.sent ++ [Frame.text (SubscribeMessage.unsubscribe_all c).toJson.render]
    ∧ (SubscribeMessage.unsubscribe_all c).toJson
      = Json.obj [("type", Json.str "unsubscribe"),
                  ("channel", Json.str c.serName),
                  ("all", Json.bool true)]
    ∧ "tickers" ∉ (SubscribeMessage.unsubscribe_all c).toJson.keys := by
  refine ⟨?_, rfl, ?_⟩
  · rw [step_unsubscribe s c true sendOk hs]
    simp
  · simp only [SubscribeMessage.unsubscribe_all, SubscribeMessage.toJson,
      Json.keys, List.map, List.append_assoc, List.cons_append,
      List.nil_append, List.mem_cons, List.not_mem_nil]
    decide

/-- Witness for C10 at a concrete state and channel. -/
theorem unsubscribe_wire_always_all_form_witness :
    (step initState (Event.unsubscribeReq Channel.Trades true false)).sent
      = initState.sent ++
        [Frame.text (SubscribeMessage.unsubscribe_all Channel.Trades).toJson.render] :=
  (unsubscribe_wire_always_all_form initState Channel.Trades false rfl).1

/-- Claim C4: an inbound text frame whose routing key cannot be decoded, or
whose channel matches no Registry entry, changes nothing at all: nothing is
delivered to any sink, the Registry is untouched, and the Loop keeps running
(the whole state is unchanged, so in particular the frame is never fatal). -/
theorem unrouted_inbound_frame_dropped (s : LoopState) (t : Option Json)
    (hs : s.status = Status.running)
    (hmiss : ∀ j, t = some j → ∀ ch, rawMessageChannel j = some ch →
      lookupSub ch s.subs = none) :
    step s (Event.inboundText t) = s := by
  have hterm : ¬ s.status = Status.terminated := by
    rw [hs]; intro h; cases h
  unfold step
  rw [if_neg hterm]
  cases t with
  | none => rfl
  | some j =>
    cases h1 : rawMessageChannel j with
    | none => simp [h1]
    | some ch => simp [h1, hmiss j rfl ch h1]

/-- Witness for C4: a frame for the unsubscribed channel `prices` against the
empty registry, and a frame with no decodable routing key, are both dropped. -/
theorem unrouted_inbound_frame_dropped_witness :
    step initState
      (Event.inboundText (some (Json.obj [("channel", Json.str "prices")])))
      = initState
    ∧ step initState (Event.inboundText (some (Json.num 3))) = initState := by
  constructor
  · exact unrouted_inbound_frame_dropped initState
      (some (Json.obj [("channel", Json.str "prices")])) rfl
      (by intro j hj ch hch; cases hj; cases hch; rfl)
  · exact unrouted_inbound_frame_dropped initState (some (Json.num 3)) rfl
      (by intro j hj ch hch; cases hj; cases hch)

/-- Claim C6: an inbound ping is answered with a pong carrying the same
payload, and that pong is handed to the socket before any frame produced by
processing later events, whatever subscribe/unsubscribe traffic surrounds
it. -/
theorem ping_answered_before_next_frame (s0 : LoopState) (pre post : List Event)
    (d : List Nat) (sendOk : Bool)
    (h : (run s0 pre).status = Status.running) :
    ∃ t, (run s0 (pre ++ Event.inboundPing d sendOk :: post)).sent
        = (run s0 pre).sent ++ Frame.pong d :: t := by
  have hsplit : pre ++ Event.inboundPing d sendOk :: post
      = (pre ++ [Event.inboundPing d sendOk]) ++ post := by simp
  rw [hsplit, run_append, run_append]
  have h1 : run (run s0 pre) [Event.inboundPing d sendOk]
      = step (run s0 pre) (Event.inboundPing d sendOk) := rfl
  rw [h1, step_ping _ d sendOk h]
  obtain ⟨t, ht⟩ := run_sent_mono
    { run s0 pre with sent := (run s0 pre).sent ++ [Frame.pong d] } post
  exact ⟨t, by rw [ht]; simp⟩

/-- Witness for C6 at a concrete trace: a ping arriving after a successful
subscribe and before a routable text frame. -/
theorem ping_answered_before_next_frame_witness :
    ∃ t, (run initState
      ([Event.subscribeReq (SubscribeMessage.mk_all Channel.Prices) true true]
        ++ Event.inboundPing [7] true ::
          [Event.inboundText (some (Json.obj [("channel", Json.str "prices")]))])).sent
      = (run initState
          [Event.subscribeReq (SubscribeMessage.mk_all Channel.Prices) true true]).sent
        ++ Frame.pong [7] :: t :=
  ping_answered_before_next_frame initState
    [Event.subscribeReq (SubscribeMessage.mk_all Channel.Prices) true true]
    [Event.inboundText (some (Json.obj [("channel", Json.str "prices")]))]
    [7] true rfl

/-- Counterexample to Claim C1 as stated: after a successful subscribe to
`prices`, a *subscribe-frame send failure* (the `ws.send` of the `trades`
subscribe frame fails) leaves the Loop Running, the `prices` entry still
registered, and no sink closed — the session is not terminated, contradicting
"there is no path on which the Loop keeps Running after such a failure". -/
theorem send_failure_keeps_running_cex :
    (run initState
      [Event.subscribeReq (SubscribeMessage.mk_all Channel.Prices) true true,
       Event.subscribeReq (SubscribeMessage.mk_all Channel.Trades) true false]).status
      = Status.running
    ∧ lookupSub "prices"
        (run initState
          [Event.subscribeReq (SubscribeMessage.mk_all Channel.Prices) true true,
           Event.subscribeReq (SubscribeMessage.mk_all Channel.Trades) true false]).subs
      = some 0
    ∧ (run initState
        [Event.subscribeReq (SubscribeMessage.mk_all Channel.Prices) true true,
         Event.subscribeReq (SubscribeMessage.mk_all Channel.Trades) true false]).closedSinks
      = [] := by
  refine ⟨rfl, ?_, rfl⟩
  simp [run, step, initState, insertSub, removeSub, lookupSub,
    SubscribeMessage.mk_all, Channel.as_str]

/-- Claim C1 as amended: only the keepalive ping send failure and an inbound
receive failure (socket error or stream end) are fatal — they stop the Loop,
close every registered sink, and reach Terminated.  A subscribe-frame send
failure is *not* fatal: that caller gets an error reply, the Registry is
untouched, and the Loop keeps Running.  A pong-reply send failure is ignored
entirely: the resulting state does not depend on the send result. -/
theorem fatal_failure_semantics (s : LoopState) (hs : s.status = Status.running) :
    ((step s (Event.timerTick false)).status = Status.terminated
      ∧ (step s (Event.timerTick false)).subs = []
      ∧ ∀ k ∈ s.subs.map Prod.snd, k ∈ (step s (Event.timerTick false)).closedSinks)
    ∧ ((step s Event.inboundRecvErr).status = Status.terminated
      ∧ (step s Event.inboundRecvErr).subs = []
      ∧ ∀ k ∈ s.subs.map Prod.snd, k ∈ (step s Event.inboundRecvErr).closedSinks)
    ∧ ((step s Event.inboundEnd).status = Status.terminated
      ∧ (step s Event.inboundEnd).subs = []
      ∧ ∀ k ∈ s.subs.map Prod.snd, k ∈ (step s Event.inboundEnd).closedSinks)
    ∧ (∀ msg : SubscribeMessage,
        (step s (Event.subscribeReq msg true false)).status = Status.running
        ∧ (step s (Event.subscribeReq msg true false)).subs = s.subs
        ∧ (step s (Event.subscribeReq msg true false)).replies
            = s.replies ++ [Reply.subErrSend])
    ∧ (∀ (d : List Nat) (sendOk : Bool),
        (step s (Event.inboundPing d sendOk)).status = Status.running
        ∧ step s (Event.inboundPing d sendOk) = step s (Event.inboundPing d true)) := by
  refine ⟨?_, ?_, ?_, ?_, ?_⟩
  · rw [step_timer_fail s hs]
    refine ⟨rfl, rfl, ?_⟩
    intro k hk
    simp only [terminate, List.mem_append]
    exact Or.inr hk
  · rw [step_recvErr s hs]
    refine ⟨rfl, rfl, ?_⟩
    intro k hk
    simp only [terminate, List.mem_append]
    exact Or.inr hk
  · rw [step_recvEnd s hs]
    refine ⟨rfl, rfl, ?_⟩
    intro k hk
    simp only [terminate, List.mem_append]
    exact Or.inr hk
  · intro msg
    rw [step_subscribe_sendErr s msg hs]
    exact ⟨hs, rfl, rfl⟩
  · intro d sendOk
    rw [step_ping s d sendOk hs, step_ping s d true hs]
    exact ⟨hs, rfl⟩

/-- Witness for the amended C1 at a concrete state with one live sink. -/
theorem fatal_failure_semantics_witness :
    (step (run initState
        [Event.subscribeReq (SubscribeMessage.mk_all Channel.Prices) true true])
      (Event.timerTick false)).status = Status.terminated :=
  (fatal_failure_semantics
    (run initState
      [Event.subscribeReq (SubscribeMessage.mk_all Channel.Prices) true true])
    rfl).1.1

/-- Claim C3: a subscribe request is atomic.  On serialization failure or on
send failure the caller receives the corresponding error and the state is
otherwise unchanged — in particular the Registry is untouched and no sink is
created.  On success the frame is sent, a fresh sink is registered under the
channel key, and the caller is handed that sink together with the capability
bound to the channel. -/
theorem subscribe_request_atomic (s : LoopState) (msg : SubscribeMessage)
    (hs : s.status = Status.running) :
    (∀ sendOk, step s (Event.subscribeReq msg false sendOk)
      = { s with replies := s.replies ++ [Reply.subErrSerialize] })
    ∧ (step s (Event.subscribeReq msg true false)
      = { s with sent := s.sent ++ [Frame.text msg.toJson.render],
                 replies := s.replies ++ [Reply.subErrSend] })
    ∧ (step s (Event.subscribeReq msg true true)).subs
        = insertSub msg.channel.as_str s.nextSink s.subs
    ∧ lookupSub msg.channel.as_str (step s (Event.subscribeReq msg true true)).subs
        = some s.nextSink
    ∧ countKey msg.channel.as_str (step s (Event.subscribeReq msg true true)).subs = 1
    ∧ (step s (Event.subscribeReq msg true true)).sent
        = s.sent ++ [Frame.text msg.toJson.render]
    ∧ (step s (Event.subscribeReq msg true true)).replies
        = s.replies ++ [Reply.subOk s.nextSink msg.channel]
    ∧ (step s (Event.subscribeReq msg true true)).nextSink = s.nextSink + 1
    ∧ (step s (Event.subscribeReq msg true true)).status = Status.running := by
  refine ⟨?_, step_subscribe_sendErr s msg hs, ?_, ?_, ?_, ?_, ?_, ?_, ?_⟩
  · intro sendOk
    exact step_subscribe_serErr s msg sendOk hs
  all_goals rw [step_subscribe_ok s msg hs]
  · exact lookupSub_insertSub_self ..
  · exact countKey_insertSub_self ..
  · exact hs

/-- Witness for C3: a failed and a successful subscribe from the initial
state. -/
theorem subscribe_request_atomic_witness :
    step initState
        (Event.subscribeReq (SubscribeMessage.mk_all Channel.Prices) true false)
      = { initState with
          sent := initState.sent ++
            [Frame.text (SubscribeMessage.mk_all Channel.Prices).toJson.render],
          replies := initState.replies ++ [Reply.subErrSend] }
    ∧ lookupSub "prices"
        (step initState
          (Event.subscribeReq (SubscribeMessage.mk_all Channel.Prices) true true)).subs
      = some 0 :=
  ⟨(subscribe_request_atomic initState (SubscribeMessage.mk_all Channel.Prices) rfl).2.1,
   (subscribe_request_atomic initState (SubscribeMessage.mk_all Channel.Prices) rfl).2.2.2.1⟩

/-- Claim C5: an unsubscribe request removes the Registry entry for the
channel (closing its sink), best-effort sends the wire unsubscribe frame (the
send outcome is irrelevant to the resulting state, hence never fatal), and
acknowledges the caller; afterwards no entry for the channel remains, and a
subscribe immediately followed by an unsubscribe leaves the Registry exactly
as an unsubscribe alone would — empty when it started empty. -/
theorem unsubscribe_removes_entry (s : LoopState) (c : Channel)
    (serOk sendOk : Bool) (hs : s.status = Status.running) :
    lookupSub c.as_str (step s (Event.unsubscribeReq c serOk sendOk)).subs = none
    ∧ (step s (Event.unsubscribeReq c serOk sendOk)).status = Status.running
    ∧ (step s (Event.unsubscribeReq c serOk sendOk)).replies
        = s.replies ++ [Reply.unsubAck]
    ∧ (∀ k, lookupSub c.as_str s.subs = some k →
        k ∈ (step s (Event.unsubscribeReq c serOk sendOk)).closedSinks)
    ∧ (serOk = true → (step s (Event.unsubscribeReq c serOk sendOk)).sent
        = s.sent ++ [Frame.text (SubscribeMessage.unsubscribe_all c).toJson.render])
    ∧ step s (Event.unsubscribeReq c serOk sendOk)
        = step s (Event.unsubscribeReq c serOk true)
    ∧ (∀ msg : SubscribeMessage, msg.channel = c →
        (run s [Event.subscribeReq msg true true,
                Event.unsubscribeReq c serOk sendOk]).subs
          = removeSub c.as_str s.subs) := by
  refine ⟨?_, ?_, ?_, ?_, ?_, ?_, ?_⟩
  · rw [step_unsubscribe s c serOk sendOk hs]
    exact lookupSub_removeSub_self ..
  · rw [step_unsubscribe s c serOk sendOk hs]
    exact hs
  · rw [step_unsubscribe s c serOk sendOk hs]
  · intro k hk
    rw [step_unsubscribe s c serOk sendOk hs]
    simp [hk]
  · intro hser
    rw [step_unsubscribe s c serOk sendOk hs, hser]
    simp
  · rw [step_unsubscribe s c serOk sendOk hs, step_unsubscribe s c serOk true hs]
  · intro msg hmc
    have hrun : run s [Event.subscribeReq msg true true,
        Event.unsubscribeReq c serOk sendOk]
        = step (step s (Event.subscribeReq msg true true))
            (Event.unsubscribeReq c serOk sendOk) := rfl
    have h1status : (step s (Event.subscribeReq msg true true)).status
        = Status.running := by
      rw [step_subscribe_ok s msg hs]; exact hs
    rw [hrun, step_unsubscribe _ c serOk sendOk h1status]
    show removeSub c.as_str (step s (Event.subscribeReq msg true true)).subs
        = removeSub c.as_str s.subs
    rw [step_subscribe_ok s msg hs]
    show removeSub c.as_str (insertSub msg.channel.as_str s.nextSink s.subs)
        = removeSub c.as_str s.subs
    rw [hmc, removeSub_insertSub]

/-- Witness for C5: subscribe to `prices` then unsubscribe it, starting from
the empty registry — the registry ends empty. -/
theorem unsubscribe_removes_entry_witness :
    (run initState
      [Event.subscribeReq (SubscribeMessage.mk_all Channel.Prices) true true,
       Event.unsubscribeReq Channel.Prices true true]).subs
      = removeSub "prices" initState.subs :=
  (unsubscribe_removes_entry initState Channel.Prices true true rfl).2.2.2.2.2.2
    (SubscribeMessage.mk_all Channel.Prices) rfl

/-- Claim C9: the unsubscribe capability captures only the `Channel` value,
not the particular subscription that created it: after `subscribe(c)` hands
out a capability and a second `subscribe(c)` replaces the entry with a fresh
sink, invoking the first capability removes the *replacement* entry and closes
the second subscriber's sink. -/
theorem capability_bound_to_channel (s : LoopState) (c : Channel)
    (m1 m2 : SubscribeMessage) (hs : s.status = Status.running)
    (h1 : m1.channel = c) (h2 : m2.channel = c) :
    (step s (Event.subscribeReq m1 true true)).replies
      = s.replies ++ [Reply.subOk s.nextSink c]
    ∧ lookupSub c.as_str
        (step (step s (Event.subscribeReq m1 true true))
          (Event.subscribeReq m2 true true)).subs = some (s.nextSink + 1)
    ∧ lookupSub c.as_str
        (step (step (step s (Event.subscribeReq m1 true true))
            (Event.subscribeReq m2 true true))
          (Event.unsubscribeReq c true true)).subs = none
    ∧ (s.nextSink + 1) ∈
        (step (step (step s (Event.subscribeReq m1 true true))
            (Event.subscribeReq m2 true true))
          (Event.unsubscribeReq c true true)).closedSinks := by
  have hA := step_subscribe_ok s m1 hs
  have hAstatus : (step s (Event.subscribeReq m1 true true)).status
      = Status.running := by rw [hA]; exact hs
  have hB := step_subscribe_ok (step s (Event.subscribeReq m1 true true)) m2 hAstatus
  have hBstatus : (step (step s (Event.subscribeReq m1 true true))
      (Event.subscribeReq m2 true true)).status = Status.running := by
    rw [hB]; exact hAstatus
  have hBsubs : (step (step s (Event.subscribeReq m1 true true))
      (Event.subscribeReq m2 true true)).subs
      = insertSub c.as_str (s.nextSink + 1)
          (insertSub c.as_str s.nextSink s.subs) := by
    rw [hB, hA]
    show insertSub m2.channel.as_str (s.nextSink + 1)
        (insertSub m1.channel.as_str s.nextSink s.subs) = _
    rw [h1, h2]
  have hC := step_unsubscribe (step (step s (Event.subscribeReq m1 true true))
      (Event.subscribeReq m2 true true)) c true true hBstatus
  refine ⟨?_, ?_, ?_, ?_⟩
  · rw [hA]
    show s.replies ++ [Reply.subOk s.nextSink m1.channel] = _
    rw [h1]
  · rw [hBsubs]
    exact lookupSub_insertSub_self ..
  · rw [hC]
    show lookupSub c.as_str (removeSub c.as_str _) = none
    exact lookupSub_removeSub_self ..
  · rw [hC]
    show (s.nextSink + 1) ∈ _ ++
      (match lookupSub c.as_str (step (step s (Event.subscribeReq m1 true true))
          (Event.subscribeReq m2 true true)).subs with
       | some old => [old]
       | none => [])
    rw [hBsubs, lookupSub_insertSub_self]
    simp

/-- Witness for C9: two subscribes to `trades` and the first capability's
unsubscribe, from the empty registry. -/
theorem capability_bound_to_channel_witness :
    (1 : Nat) ∈
        (step (step (step initState
            (Event.subscribeReq (SubscribeMessage.mk_all Channel.Trades) true true))
            (Event.subscribeReq
              (SubscribeMessage.mk_tickers Channel.Trades ["T-1"]) true true))
          (Event.unsubscribeReq Channel.Trades true true)).closedSinks :=
  (capability_bound_to_channel initState Channel.Trades
    (SubscribeMessage.mk_all Channel.Trades)
    (SubscribeMessage.mk_tickers Channel.Trades ["T-1"]) rfl rfl rfl).2.2.2

/-- Claim C7: the typed lazy sequence skips any raw message that fails typed
decoding and continues with the remaining messages; every element it yields is
a successfully decoded raw message (no typed error is ever produced), and its
content is exhausted exactly when the underlying sink's message list is. -/
theorem typed_stream_skips_undecodable {α : Type} (dec : Json → Option α)
    (xs ys : List Json) (bad : Json) (hbad : dec bad = none) :
    typedStream dec (xs ++ bad :: ys) = typedStream dec xs ++ typedStream dec ys
    ∧ (∀ (v : α) (raws : List Json),
        v ∈ typedStream dec raws ↔ ∃ r ∈ raws, dec r = some v)
    ∧ typedStream dec [] = ([] : List α) := by
  refine ⟨?_, ?_, rfl⟩
  · simp [typedStream, List.filterMap_append, List.filterMap_cons, hbad]
  · intro v raws
    simp [typedStream, List.mem_filterMap]

/-- Witness for C7: a price-like decoder over a sink containing one good
message, one undecodable message, and another good message. -/
theorem typed_stream_skips_undecodable_witness :
    typedStream (fun j => match j with
        | Json.str s => some s
        | _ => none)
      ([Json.str "a"] ++ Json.num 0 :: [Json.str "b"])
      = typedStream (fun j => match j with
          | Json.str s => some s
          | _ => none) [Json.str "a"]
        ++ typedStream (fun j => match j with
            | Json.str s => some s
            | _ => none) [Json.str "b"] :=
  (typed_stream_skips_undecodable (fun j => match j with
      | Json.str s => some s
      | _ => none)
    [Json.str "a"] [Json.str "b"] (Json.num 0) rfl).1

/-- Claim C2: for any non-empty sequence of successful subscribes to channel
`c` with no intervening unsubscribe, the Registry ends with exactly one entry
for `c`, that entry's sink is the one created by the most recent subscribe,
every sink created by an earlier subscribe of the sequence has been closed
(dropped on replacement), and so has any sink registered for `c` before the
sequence began.  Instantiating `msgs` with each prefix of a longer sequence
gives the invariant at every intermediate point. -/
theorem last_subscribe_wins (s : LoopState) (c : Channel)
    (msgs : List SubscribeMessage)
    (hs : s.status = Status.running)
    (hch : ∀ m ∈ msgs, m.channel = c)
    (hne : msgs ≠ []) :
    (run s (msgs.map fun m => Event.subscribeReq m true true)).status
        = Status.running
    ∧ lookupSub c.as_str
        (run s (msgs.map fun m => Event.subscribeReq m true true)).subs
        = some (s.nextSink + msgs.length - 1)
    ∧ countKey c.as_str
        (run s (msgs.map fun m => Event.subscribeReq m true true)).subs = 1
    ∧ (∀ i, i + 1 < msgs.length →
        (s.nextSink + i) ∈
          (run s (msgs.map fun m => Event.subscribeReq m true true)).closedSinks)
    ∧ (∀ k, lookupSub c.as_str s.subs = some k →
        k ∈ (run s (msgs.map fun m => Event.subscribeReq m true true)).closedSinks) := by
  induction msgs generalizing s with
  | nil => exact absurd rfl hne
  | cons m rest ih =>
    have hmc : m.channel = c := hch m (List.mem_cons_self m rest)
    have hstep := step_subscribe_ok s m hs
    have hrw : run s ((m :: rest).map fun m => Event.subscribeReq m true true)
        = run (step s (Event.subscribeReq m true true))
            (rest.map fun m => Event.subscribeReq m true true) := rfl
    have h1status : (step s (Event.subscribeReq m true true)).status
        = Status.running := by rw [hstep]; exact hs
    have h1subs : (step s (Event.subscribeReq m true true)).subs
        = insertSub c.as_str s.nextSink s.subs := by
      rw [hstep]
      show insertSub m.channel.as_str s.nextSink s.subs = _
      rw [hmc]
    have h1next : (step s (Event.subscribeReq m true true)).nextSink
        = s.nextSink + 1 := by rw [hstep]
    have h1closed : ∀ k, lookupSub c.as_str s.subs = some k →
        k ∈ (step s (Event.subscribeReq m true true)).closedSinks := by
      intro k hk
      rw [hstep]
      show k ∈ s.closedSinks ++
        (match lookupSub m.channel.as_str s.subs with
         | some old => [old]
         | none => [])
      rw [hmc, hk]
      simp
    by_cases hrest : rest = []
    · subst hrest
      rw [hrw]
      refine ⟨h1status, ?_, ?_, ?_, ?_⟩
      · show lookupSub c.as_str (step s (Event.subscribeReq m true true)).subs = _
        rw [h1subs, lookupSub_insertSub_self]
        simp
      · show countKey c.as_str (step s (Event.subscribeReq m true true)).subs = 1
        rw [h1subs, countKey_insertSub_self]
      · intro i hi
        exact absurd hi (by simp)
      · exact h1closed
    · have ihres := ih (step s (Event.subscribeReq m true true)) h1status
        (fun m' hm' => hch m' (List.mem_cons_of_mem m hm')) hrest
      rw [hrw]
      obtain ⟨ih1, ih2, ih3, ih4, ih5⟩ := ihres
      refine ⟨ih1, ?_, ih3, ?_, ?_⟩
      · rw [ih2, h1next]
        have hlen : 0 < rest.length := List.length_pos.mpr hrest
        congr 1
        simp only [List.length_cons]
        omega
      · intro i hi
        simp only [List.length_cons] at hi
        cases i with
        | zero =>
          exact ih5 s.nextSink (by rw [h1subs]; exact lookupSub_insertSub_self ..)
        | succ j =>
          have hj : j + 1 < rest.length := by omega
          have hmem := ih4 j hj
          rw [h1next] at hmem
          have heq : s.nextSink + 1 + j = s.nextSink + (j + 1) := by omega
          rw [heq] at hmem
          exact hmem
      · intro k hk
        exact run_closed_mono _ _ k (h1closed k hk)

/-- Witness for C2: two successful subscribes to `prices` from the empty
registry — the registry maps `prices` to the second sink and the first sink
has been closed. -/
theorem last_subscribe_wins_witness :
    lookupSub "prices"
      (run initState
        ([SubscribeMessage.mk_all Channel.Prices,
          SubscribeMessage.mk_tickers Channel.Prices ["A"]].map
          fun m => Event.subscribeReq m true true)).subs = some 1
    ∧ (0 : Nat) ∈
      (run initState
        ([SubscribeMessage.mk_all Channel.Prices,
          SubscribeMessage.mk_tickers Channel.Prices ["A"]].map
          fun m => Event.subscribeReq m true true)).closedSinks :=
  ⟨(last_subscribe_wins initState Channel.Prices
      [SubscribeMessage.mk_all Channel.Prices,
       SubscribeMessage.mk_tickers Channel.Prices ["A"]]
      rfl (by decide) (by decide)).2.1,
   (last_subscribe_wins initState Channel.Prices
      [SubscribeMessage.mk_all Channel.Prices,
       SubscribeMessage.mk_tickers Channel.Prices ["A"]]
      rfl (by decide) (by decide)).2.2.2.1 0 (by decide)⟩

end DflowWs
